import Mathlib

/-!
Verification development for the BEM++ `EvaluationOptions` configuration
component (`lib/assembly/evaluation_options.hpp`).

The repository snapshot contains only the class header: the method bodies
and the two leaf value types (`Fiber::ParallelizationOptions`,
`Fiber::VerbosityLevel`) and the generic `ParameterList` are declared but
not defined there.  Facts fixed by the header (the `Mode` enumeration, the
`AUTO = -1` sentinel, the default argument of `switchToTbb`, the private
member layout) are embedded from the header; the behaviour of the missing
bodies is modelled from the specification, as marked in each doc comment.
-/

namespace Bempp

/-- Modelled from the spec: `fiber/verbosity_level.hpp` (declaring
`Fiber::VerbosityLevel`) is absent from the snapshot.  The spec describes a
closed, totally ordered enumeration of diagnostic tiers with an
implementation-defined default (middle) tier, here `DEFAULT`. -/
inductive VerbosityLevel where
  | LOW
  | DEFAULT
  | HIGH
deriving DecidableEq, Repr

/-- Modelled from the spec: `fiber/parallelization_options.hpp` is absent
from the snapshot.  The spec describes the thread-count policy as
`Automatic | Fixed(n)`; the count is kept as an `Int` (the C++ `int`), so
that positivity is a provable invariant rather than baked into the type. -/
inductive ThreadCountPolicy where
  | Automatic
  | Fixed (n : Int)
deriving DecidableEq, Repr

/-- Modelled from the spec: `ParallelizationOptions` wraps a single field,
the thread-count policy; validation of positivity happens at the
`EvaluationOptions` boundary, not here. -/
structure ParallelizationOptions where
  policy : ThreadCountPolicy
deriving DecidableEq, Repr

/-- Modelled from the spec: the single error kind, `InvalidArgument`,
raised synchronously by the thread-count setter and its deprecated alias. -/
inductive ErrorKind where
  | invalidArgument
deriving DecidableEq, Repr

/-- Modelled from the spec: the generic parameter mechanism
(`ParameterList` from `common/types.hpp`) is absent from the snapshot.  The
spec describes a mapping from string-like keys to heterogeneous values,
consumed only through lookup-by-key returning a value or "absent". -/
inductive ParamValue where
  | intVal (i : Int)
  | strVal (s : String)
deriving DecidableEq, Repr

/-- A parameter collection: an association list of keys and values. -/
abbrev ParameterList := List (String × ParamValue)

/-- Lookup-by-key in a parameter collection (first match wins). -/
def lookupParam (key : String) : ParameterList → Option ParamValue
  | [] => none
  | (k, v) :: rest => if k = key then some v else lookupParam key rest

/-- Possible evaluation modes, from the header (`enum Mode`): dense
matrices or hierarchical matrices via HMat. -/
inductive EvaluationOptions.Mode where
  | DENSE
  | HMAT
deriving DecidableEq, Repr

/-- The state of an `EvaluationOptions` object, with the private members
declared in the header: evaluation mode, parallelization options,
verbosity level, and the retained parameter collection. -/
structure EvaluationOptions where
  m_evaluationMode : EvaluationOptions.Mode
  m_parallelizationOptions : ParallelizationOptions
  m_verbosityLevel : VerbosityLevel
  m_parameterList : ParameterList
deriving DecidableEq, Repr

namespace EvaluationOptions

/-- The automatic sentinel, from the header: `enum { AUTO = -1 }`. -/
def AUTO : Int := -1

/-- Modelled from the spec: the default constructor (body absent from the
snapshot) sets mode = Dense, parallelization = Automatic, verbosity =
default tier, and retains no parameters; it always succeeds. -/
def default : EvaluationOptions :=
  { m_evaluationMode := Mode.DENSE
    m_parallelizationOptions := ⟨ThreadCountPolicy.Automatic⟩
    m_verbosityLevel := VerbosityLevel.DEFAULT
    m_parameterList := [] }

/-- Return current evaluation mode (`evaluationMode() const`). -/
def evaluationMode (o : EvaluationOptions) : Mode :=
  o.m_evaluationMode

/-- Return current parallelization options
(`parallelizationOptions() const`). -/
def parallelizationOptions (o : EvaluationOptions) : ParallelizationOptions :=
  o.m_parallelizationOptions

/-- Return the verbosity level (`verbosityLevel() const`). -/
def verbosityLevel (o : EvaluationOptions) : VerbosityLevel :=
  o.m_verbosityLevel

/-- Modelled from the spec: `switchToDenseMode()` (body absent from the
snapshot) sets mode = Dense and never fails. -/
def switchToDenseMode (o : EvaluationOptions) : EvaluationOptions :=
  { o with m_evaluationMode := Mode.DENSE }

/-- Modelled from the spec: `setVerbosityLevel(level)` (body absent from
the snapshot) sets the verbosity and never fails. -/
def setVerbosityLevel (o : EvaluationOptions) (level : VerbosityLevel) :
    EvaluationOptions :=
  { o with m_verbosityLevel := level }

/-- Modelled from the spec: `setMaxThreadCount(n)` (body absent from the
snapshot) sets a fixed policy of n for positive n, the automatic policy
for the sentinel `AUTO`, and otherwise fails with `InvalidArgument`
leaving the state unchanged.  The pair returned is the call outcome
together with the post-call state. -/
def setMaxThreadCount (o : EvaluationOptions) (maxThreadCount : Int) :
    Except ErrorKind Unit × EvaluationOptions :=
  if 0 < maxThreadCount then
    (Except.ok (),
      { o with m_parallelizationOptions := ⟨ThreadCountPolicy.Fixed maxThreadCount⟩ })
  else if maxThreadCount = AUTO then
    (Except.ok (),
      { o with m_parallelizationOptions := ⟨ThreadCountPolicy.Automatic⟩ })
  else
    (Except.error ErrorKind.invalidArgument, o)

/-- Modelled from the spec: the deprecated alias `switchToTbb(n)` is a
thin forwarding call to `setMaxThreadCount(n)`. -/
def switchToTbb (o : EvaluationOptions) (maxThreadCount : Int) :
    Except ErrorKind Unit × EvaluationOptions :=
  o.setMaxThreadCount maxThreadCount

/-- The call `switchToTbb()` with no argument: the header declares the
default argument `maxThreadCount = AUTO`. -/
def switchToTbbDefault (o : EvaluationOptions) :
    Except ErrorKind Unit × EvaluationOptions :=
  o.switchToTbb AUTO

end EvaluationOptions

/-- The keys the parameterized constructor recognizes, one per facet
(mode, thread count, verbosity), per the spec. -/
def recognizedKeys : List String := ["mode", "maxThreadCount", "verbosity"]

/-- Modelled from the spec: interpretation of the recognized "mode" key;
a recognized key with an out-of-range value fails validation. -/
def parseMode : ParamValue → Except ErrorKind EvaluationOptions.Mode
  | ParamValue.strVal "dense" => Except.ok EvaluationOptions.Mode.DENSE
  | ParamValue.strVal "hmat" => Except.ok EvaluationOptions.Mode.HMAT
  | _ => Except.error ErrorKind.invalidArgument

/-- Modelled from the spec: interpretation of the recognized thread-count
key, validated exactly as in `setMaxThreadCount`. -/
def parseThreadCount : ParamValue → Except ErrorKind ParallelizationOptions
  | ParamValue.intVal n =>
    if 0 < n then Except.ok ⟨ThreadCountPolicy.Fixed n⟩
    else if n = EvaluationOptions.AUTO then Except.ok ⟨ThreadCountPolicy.Automatic⟩
    else Except.error ErrorKind.invalidArgument
  | _ => Except.error ErrorKind.invalidArgument

/-- Modelled from the spec: interpretation of the recognized verbosity
key; a recognized key with an out-of-range value fails validation. -/
def parseVerbosity : ParamValue → Except ErrorKind VerbosityLevel
  | ParamValue.strVal "low" => Except.ok VerbosityLevel.LOW
  | ParamValue.strVal "default" => Except.ok VerbosityLevel.DEFAULT
  | ParamValue.strVal "high" => Except.ok VerbosityLevel.HIGH
  | _ => Except.error ErrorKind.invalidArgument

/-- Modelled from the spec: the three facets read from a parameter
collection; a missing key falls back to the default constructor's value
for that facet, unrecognized keys are never consulted. -/
def interpretParameters (parameters : ParameterList) :
    Except ErrorKind
      (EvaluationOptions.Mode × ParallelizationOptions × VerbosityLevel) :=
  match (match lookupParam "mode" parameters with
         | none => Except.ok EvaluationOptions.Mode.DENSE
         | some v => parseMode v) with
  | Except.error e => Except.error e
  | Except.ok mode =>
    match (match lookupParam "maxThreadCount" parameters with
           | none => Except.ok ⟨ThreadCountPolicy.Automatic⟩
           | some v => parseThreadCount v) with
    | Except.error e => Except.error e
    | Except.ok par =>
      match (match lookupParam "verbosity" parameters with
             | none => Except.ok VerbosityLevel.DEFAULT
             | some v => parseVerbosity v) with
      | Except.error e => Except.error e
      | Except.ok verb => Except.ok (mode, par, verb)

/-- Modelled from the spec: the constructor
`EvaluationOptions(const ParameterList &)` (body absent from the
snapshot) interprets the recognized keys once, falls back to the default
constructor's values for missing keys, and retains the full supplied
collection for later inspection. -/
def EvaluationOptions.fromParameterList (parameters : ParameterList) :
    Except ErrorKind EvaluationOptions :=
  (interpretParameters parameters).map fun f =>
    { m_evaluationMode := f.1
      m_parallelizationOptions := f.2.1
      m_verbosityLevel := f.2.2
      m_parameterList := parameters }

/-- The observable behaviour of an instance: the three read accessors. -/
def observableState (o : EvaluationOptions) :
    EvaluationOptions.Mode × ParallelizationOptions × VerbosityLevel :=
  (o.evaluationMode, o.parallelizationOptions, o.verbosityLevel)

/-- The states reachable through the public interface: either constructor
followed by any sequence of setter calls (a failed setter call leaves the
state of the pair unchanged, so it is covered as well). -/
inductive Reachable : EvaluationOptions → Prop where
  | defaultCtor : Reachable EvaluationOptions.default
  | paramCtor (ps : ParameterList) (o : EvaluationOptions) :
      EvaluationOptions.fromParameterList ps = Except.ok o → Reachable o
  | switchToDenseMode (o : EvaluationOptions) :
      Reachable o → Reachable o.switchToDenseMode
  | setVerbosityLevel (o : EvaluationOptions) (v : VerbosityLevel) :
      Reachable o → Reachable (o.setVerbosityLevel v)
  | setMaxThreadCount (o : EvaluationOptions) (n : Int) :
      Reachable o → Reachable (o.setMaxThreadCount n).2

/-- A parallelization value is valid when its policy is either the
automatic sentinel or a strictly positive fixed count. -/
def PolicyValid (p : ParallelizationOptions) : Prop :=
  match p.policy with
  | ThreadCountPolicy.Automatic => True
  | ThreadCountPolicy.Fixed n => 0 < n

/-- The thread-count invariant of an instance: its parallelization policy
is either the automatic sentinel or a strictly positive fixed count. -/
def ThreadCountInvariant (o : EvaluationOptions) : Prop :=
  PolicyValid o.m_parallelizationOptions

/-- C1: for every valid input to setMaxThreadCount — a positive n or the
automatic sentinel — the call succeeds, and parallelizationOptions()
afterwards reports a fixed policy of exactly n when n is positive and the
automatic policy when n is the sentinel, regardless of the prior state. -/
theorem setMaxThreadCount_valid_reports (o : EvaluationOptions) (n : Int) :
    (0 < n →
      (o.setMaxThreadCount n).1 = Except.ok () ∧
      (o.setMaxThreadCount n).2.parallelizationOptions =
        ⟨ThreadCountPolicy.Fixed n⟩) ∧
    (n = EvaluationOptions.AUTO →
      (o.setMaxThreadCount n).1 = Except.ok () ∧
      (o.setMaxThreadCount n).2.parallelizationOptions =
        ⟨ThreadCountPolicy.Automatic⟩) := by
  constructor
  · intro h
    simp [EvaluationOptions.setMaxThreadCount,
      EvaluationOptions.parallelizationOptions, h]
  · intro h
    subst h
    simp [EvaluationOptions.setMaxThreadCount,
      EvaluationOptions.parallelizationOptions, EvaluationOptions.AUTO]

/-- Witness for C1 at n = 4 and n = AUTO = -1 from the default state. -/
theorem setMaxThreadCount_valid_reports_witness :
    ((EvaluationOptions.default.setMaxThreadCount 4).1 = Except.ok () ∧
     (EvaluationOptions.default.setMaxThreadCount 4).2.parallelizationOptions =
       ⟨ThreadCountPolicy.Fixed 4⟩) ∧
    ((EvaluationOptions.default.setMaxThreadCount (-1)).1 = Except.ok () ∧
     (EvaluationOptions.default.setMaxThreadCount (-1)).2.parallelizationOptions =
       ⟨ThreadCountPolicy.Automatic⟩) :=
  ⟨(setMaxThreadCount_valid_reports EvaluationOptions.default 4).1 (by decide),
   (setMaxThreadCount_valid_reports EvaluationOptions.default (-1)).2 (by decide)⟩

/-- C2: for every n ≤ 0 that is not the automatic sentinel,
setMaxThreadCount(n) fails with InvalidArgument and the whole state —
hence everything observable through evaluationMode(),
parallelizationOptions() and verbosityLevel() — is unchanged. -/
theorem setMaxThreadCount_invalid_fails_atomic (o : EvaluationOptions)
    (n : Int) (hle : n ≤ 0) (hne : n ≠ EvaluationOptions.AUTO) :
    (o.setMaxThreadCount n).1 = Except.error ErrorKind.invalidArgument ∧
    (o.setMaxThreadCount n).2 = o ∧
    (o.setMaxThreadCount n).2.evaluationMode = o.evaluationMode ∧
    (o.setMaxThreadCount n).2.parallelizationOptions = o.parallelizationOptions ∧
    (o.setMaxThreadCount n).2.verbosityLevel = o.verbosityLevel := by
  have hnot : ¬ 0 < n := not_lt.mpr hle
  simp [EvaluationOptions.setMaxThreadCount, hnot, hne]

/-- Witness for C2 at n = 0 from the default state. -/
theorem setMaxThreadCount_invalid_fails_atomic_witness :
    (0 : Int) ≤ 0 ∧ (0 : Int) ≠ EvaluationOptions.AUTO ∧
    ((EvaluationOptions.default.setMaxThreadCount 0).1 =
       Except.error ErrorKind.invalidArgument ∧
     (EvaluationOptions.default.setMaxThreadCount 0).2 =
       EvaluationOptions.default ∧
     (EvaluationOptions.default.setMaxThreadCount 0).2.evaluationMode =
       EvaluationOptions.default.evaluationMode ∧
     (EvaluationOptions.default.setMaxThreadCount 0).2.parallelizationOptions =
       EvaluationOptions.default.parallelizationOptions ∧
     (EvaluationOptions.default.setMaxThreadCount 0).2.verbosityLevel =
       EvaluationOptions.default.verbosityLevel) :=
  ⟨by decide, by decide,
   setMaxThreadCount_invalid_fails_atomic EvaluationOptions.default 0
     (by decide) (by decide)⟩

/-- C3: a default-constructed EvaluationOptions reports mode = Dense,
the automatic parallelization policy, and the default verbosity tier;
default construction is a total operation and always succeeds. -/
theorem default_ctor_observable :
    EvaluationOptions.default.evaluationMode = EvaluationOptions.Mode.DENSE ∧
    EvaluationOptions.default.parallelizationOptions =
      ⟨ThreadCountPolicy.Automatic⟩ ∧
    EvaluationOptions.default.verbosityLevel = VerbosityLevel.DEFAULT := by
  decide

/-- C4: for every integer n and every starting state, switchToTbb(n)
returns exactly the same outcome and post state as setMaxThreadCount(n):
identical observable state for valid n and identical failure for
invalid n. -/
theorem switchToTbb_alias_equiv (o : EvaluationOptions) (n : Int) :
    o.switchToTbb n = o.setMaxThreadCount n := rfl

/-- C5: the facets are independent: setMaxThreadCount and switchToTbb
leave the mode and verbosity unchanged, switchToDenseMode leaves the
parallelization policy and verbosity unchanged, and setVerbosityLevel
leaves the mode and the parallelization policy unchanged. -/
theorem facets_independent (o : EvaluationOptions) (n : Int)
    (v : VerbosityLevel) :
    (o.setMaxThreadCount n).2.evaluationMode = o.evaluationMode ∧
    (o.setMaxThreadCount n).2.verbosityLevel = o.verbosityLevel ∧
    (o.switchToTbb n).2.evaluationMode = o.evaluationMode ∧
    (o.switchToTbb n).2.verbosityLevel = o.verbosityLevel ∧
    o.switchToDenseMode.parallelizationOptions = o.parallelizationOptions ∧
    o.switchToDenseMode.verbosityLevel = o.verbosityLevel ∧
    (o.setVerbosityLevel v).evaluationMode = o.evaluationMode ∧
    (o.setVerbosityLevel v).parallelizationOptions = o.parallelizationOptions := by
  have h : (o.setMaxThreadCount n).2.evaluationMode = o.evaluationMode ∧
      (o.setMaxThreadCount n).2.verbosityLevel = o.verbosityLevel := by
    unfold EvaluationOptions.setMaxThreadCount
    split
    · exact ⟨rfl, rfl⟩
    · split
      · exact ⟨rfl, rfl⟩
      · exact ⟨rfl, rfl⟩
  exact ⟨h.1, h.2, h.1, h.2, rfl, rfl, rfl, rfl⟩

/-- Removing an entry whose key differs from the looked-up key does not
change the result of the lookup. -/
theorem lookupParam_append_middle (key k : String) (v : ParamValue)
    (ps₁ ps₂ : ParameterList) (h : k ≠ key) :
    lookupParam key (ps₁ ++ (k, v) :: ps₂) = lookupParam key (ps₁ ++ ps₂) := by
  induction ps₁ with
  | nil => simp [lookupParam, h]
  | cons a rest ih =>
    obtain ⟨a1, a2⟩ := a
    simp only [List.cons_append, lookupParam]
    split
    · rfl
    · exact ih

/-- The observable behaviour of a parameter-constructed instance is
exactly the interpretation of the recognized keys. -/
theorem fromParameterList_map_observable (ps : ParameterList) :
    (EvaluationOptions.fromParameterList ps).map observableState =
      interpretParameters ps := by
  unfold EvaluationOptions.fromParameterList
  cases h : interpretParameters ps with
  | error e => simp [Except.map]
  | ok f =>
    obtain ⟨m, p, vl⟩ := f
    simp [Except.map, observableState, EvaluationOptions.evaluationMode,
      EvaluationOptions.parallelizationOptions, EvaluationOptions.verbosityLevel]

/-- C6: constructing from a parameter collection containing a key the
component does not recognize yields the same construction outcome — it
introduces no failure, and on success the observable behaviour (mode,
parallelization policy, verbosity) is identical to constructing from the
same collection with that key omitted. -/
theorem unrecognizedKey_ignored (ps₁ ps₂ : ParameterList) (k : String)
    (v : ParamValue) (h : k ∉ recognizedKeys) :
    (EvaluationOptions.fromParameterList
        (ps₁ ++ (k, v) :: ps₂)).map observableState =
      (EvaluationOptions.fromParameterList (ps₁ ++ ps₂)).map observableState := by
  simp only [recognizedKeys, List.mem_cons, not_or] at h
  obtain ⟨h1, h2, h3, -⟩ := h
  rw [fromParameterList_map_observable, fromParameterList_map_observable]
  unfold interpretParameters
  rw [lookupParam_append_middle "mode" k v ps₁ ps₂ h1,
    lookupParam_append_middle "maxThreadCount" k v ps₁ ps₂ h2,
    lookupParam_append_middle "verbosity" k v ps₁ ps₂ h3]

/-- Witness for C6: an unrecognized key inserted after a recognized one. -/
theorem unrecognizedKey_ignored_witness :
    "color" ∉ recognizedKeys ∧
    (EvaluationOptions.fromParameterList
        ([("maxThreadCount", ParamValue.intVal 2)] ++
          ("color", ParamValue.strVal "blue") :: [])).map observableState =
      (EvaluationOptions.fromParameterList
        ([("maxThreadCount", ParamValue.intVal 2)] ++ [])).map observableState :=
  ⟨by decide,
   unrecognizedKey_ignored [("maxThreadCount", ParamValue.intVal 2)] []
     "color" (ParamValue.strVal "blue") (by decide)⟩

/-- A successfully parsed thread-count parameter yields a valid policy. -/
theorem parseThreadCount_policyValid (v : ParamValue)
    (p : ParallelizationOptions) (h : parseThreadCount v = Except.ok p) :
    PolicyValid p := by
  cases v with
  | intVal n =>
    simp only [parseThreadCount] at h
    split at h
    · injection h with h
      subst h
      rename_i hn
      exact hn
    · split at h
      · injection h with h
        subst h
        trivial
      · simp at h
  | strVal s => simp [parseThreadCount] at h

/-- A successful interpretation of a parameter collection yields a valid
parallelization policy. -/
theorem interpretParameters_policyValid (ps : ParameterList)
    (f : EvaluationOptions.Mode × ParallelizationOptions × VerbosityLevel)
    (h : interpretParameters ps = Except.ok f) : PolicyValid f.2.1 := by
  unfold interpretParameters at h
  split at h
  · exact absurd h (by simp)
  · split at h
    · exact absurd h (by simp)
    · rename_i par hpar
      split at h
      · exact absurd h (by simp)
      · injection h with h
        rw [← h]
        cases hl : lookupParam "maxThreadCount" ps with
        | none =>
          rw [hl] at hpar
          injection hpar with hpar
          rw [← hpar]
          trivial
        | some v =>
          rw [hl] at hpar
          exact parseThreadCount_policyValid v par hpar

/-- C9: every state reachable through the constructors and setters
satisfies the invariant that the parallelization thread-count policy is
either a positive integer or the automatic sentinel, never zero or a
negative count. -/
theorem reachable_policy_invariant (o : EvaluationOptions)
    (h : Reachable o) : ThreadCountInvariant o := by
  induction h with
  | defaultCtor => trivial
  | paramCtor ps o hok =>
    unfold EvaluationOptions.fromParameterList at hok
    cases hip : interpretParameters ps with
    | error e =>
      rw [hip] at hok
      simp [Except.map] at hok
    | ok f =>
      rw [hip] at hok
      simp only [Except.map] at hok
      injection hok with hok
      rw [← hok]
      exact interpretParameters_policyValid ps f hip
  | switchToDenseMode o hr ih => exact ih
  | setVerbosityLevel o v hr ih => exact ih
  | setMaxThreadCount o n hr ih =>
    unfold EvaluationOptions.setMaxThreadCount
    split
    · rename_i hn
      exact hn
    · split
      · trivial
      · exact ih

/-- Witness for C9: the state reached by a default construction followed
by a successful setMaxThreadCount(4) satisfies the invariant. -/
theorem reachable_policy_invariant_witness :
    ThreadCountInvariant (EvaluationOptions.default.setMaxThreadCount 4).2 :=
  reachable_policy_invariant (EvaluationOptions.default.setMaxThreadCount 4).2
    (Reachable.setMaxThreadCount EvaluationOptions.default 4 Reachable.defaultCtor)

/-- C7: for every verbosity tier v, setVerbosityLevel(v) followed by
verbosityLevel() returns exactly v; the setter is total and never fails. -/
theorem setVerbosityLevel_roundtrip (o : EvaluationOptions)
    (v : VerbosityLevel) :
    (o.setVerbosityLevel v).verbosityLevel = v := rfl

/-- C8: switchToDenseMode() is idempotent: calling it twice yields the
same observable mode as calling it once, namely Dense; the call is a
total operation and never fails. -/
theorem switchToDenseMode_idempotent (o : EvaluationOptions) :
    o.switchToDenseMode.switchToDenseMode.evaluationMode =
      o.switchToDenseMode.evaluationMode ∧
    o.switchToDenseMode.evaluationMode = EvaluationOptions.Mode.DENSE :=
  ⟨rfl, rfl⟩

/-- C10: the automatic sentinel is the integer -1 (the constant AUTO):
setMaxThreadCount(-1) succeeds and sets the automatic policy even though
-1 is negative, and switchToTbb with no argument uses this default and
likewise sets the automatic policy. -/
theorem auto_sentinel_is_neg_one (o : EvaluationOptions) :
    EvaluationOptions.AUTO = -1 ∧
    (o.setMaxThreadCount (-1)).1 = Except.ok () ∧
    (o.setMaxThreadCount (-1)).2.parallelizationOptions =
      ⟨ThreadCountPolicy.Automatic⟩ ∧
    o.switchToTbbDefault = o.setMaxThreadCount (-1) := by
  refine ⟨rfl, ?_, ?_, rfl⟩ <;>
    simp [EvaluationOptions.setMaxThreadCount,
      EvaluationOptions.parallelizationOptions, EvaluationOptions.AUTO]

end Bempp
